import Mathlib

/-!
Shallow embedding of the e-commerce data pipeline (Dagster + DuckDB project):
the record cleaner (`clean_amazon_sales_data`), the raw table loader
(`insert_raw_data_to_duckdb`), the two aggregation engines
(`create_monthly_revenue_table`, `create_daily_orders_table`) and the
connection wrapper (`DuckDBConnectionWrapper`), together with theorems
settling the claims of the specification about them.

Numeric amounts are modelled as `Rat` (SQL DECIMAL arithmetic is exact
decimal arithmetic), nullable SQL/pandas fields as `Option`, tables as
lists of rows, and the DuckDB store as a record of three tables.
-/

namespace Pipeline

/-- A calendar date, the result of `pd.to_datetime(..., format=\x7b"%m-%d-%y"\x7d)`
   restricted to its year/month/day payload. -/
structure Date where
  year : Nat
  month : Nat
  day : Nat
deriving DecidableEq, Inhabited

def isLeapYear (y : Nat) : Bool :=
  y % 4 == 0 && (y % 100 != 0 || y % 400 == 0)

def daysInMonth (m y : Nat) : Nat :=
  if m = 2 then (if isLeapYear y then 29 else 28)
  else if m = 4 ∨ m = 6 ∨ m = 9 ∨ m = 11 then 30
  else 31

/-- Strict parse of the `%m-%d-%y` format used by
`pd.to_datetime(df_clean[date_col], format=%m-%d-%y)`: month 1-2 digits in
1..12, day 1-2 digits valid for the month, year exactly 2 digits with the
strptime pivot (00-68 maps to 20xx, 69-99 to 19xx). `none` means the row
raises a parse error (see `parseDateMDY`). Splitting on the dash
separator: -/
def splitDashes : List Char → List (List Char)
  | [] => [[]]
  | c :: cs =>
    let rest := splitDashes cs
    if c = '-' then [] :: rest
    else
      match rest with
      | [] => [[c]]
      | h :: t => (c :: h) :: t

/-- Read a non-empty all-digit character group as a number. -/
def digitsToNat (cs : List Char) : Option Nat :=
  if cs ≠ [] ∧ cs.all Char.isDigit then
    some (cs.foldl (fun a c => 10 * a + (c.toNat - 48)) 0)
  else none

def parseDateMDY (s : String) : Option Date :=
  match splitDashes s.data with
  | [ms, ds, ys] =>
    match digitsToNat ms, digitsToNat ds, digitsToNat ys with
    | some m, some d, some yy =>
      if ms.length ≤ 2 ∧ ds.length ≤ 2 ∧ ys.length = 2 ∧
         1 ≤ m ∧ m ≤ 12 ∧ 1 ≤ d then
        let y := if yy ≤ 68 then 2000 + yy else 1900 + yy
        if d ≤ daysInMonth m y then some ⟨y, m, d⟩ else none
      else none
    | _, _, _ => none
  | _ => none

/-- One input row of the raw CSV as seen by `clean_amazon_sales_data`:
only the columns the cleaner reads or writes (Status, Amount, currency,
Date, Qty, Category, data_quality_flag); `none` is pandas NaN / a missing
value. -/
structure SaleRecord where
  status : Option String
  amount : Option Rat
  currency : Option String
  date : String
  qty : Option Int
  category : Option String
  dataQualityFlag : Option String
deriving DecidableEq, Inhabited

/-- Rule 1 of `clean_amazon_sales_data` (line 52-54): rows with
Status equal to Cancelled and NaN Amount get Amount = 0.0. In pandas,
NaN compared equal to Cancelled is False, so a null status never matches. -/
def applyRule1 (r : SaleRecord) : SaleRecord :=
  if r.status == some "Cancelled" && r.amount.isNone then
    { r with amount := some 0 }
  else r

/-- Rule 2 (lines 57-60), evaluated on the dataframe AFTER rule 1 has
mutated it: rows with Status different from Cancelled (pandas: NaN != string is
True, so null status matches) and NaN Amount get the data-quality flag. -/
def applyRule2 (r : SaleRecord) : SaleRecord :=
  if !(r.status == some "Cancelled") && r.amount.isNone then
    { r with dataQualityFlag := some "missing_amount_non_cancelled" }
  else r

/-- Rule 3 (lines 63-65): NaN currency becomes the fixed default INR. -/
def applyRule3 (r : SaleRecord) : SaleRecord :=
  if r.currency.isNone then { r with currency := some "INR" } else r

/-- Rules 1-3 in the order the source applies them. -/
def cleanRules (r : SaleRecord) : SaleRecord :=
  applyRule3 (applyRule2 (applyRule1 r))

/-- A cleaned output row: same payload with the Date column converted to a
calendar date by rule 4. -/
structure CleanedRecord where
  status : Option String
  amount : Option Rat
  currency : Option String
  dateCol : Date
  qty : Option Int
  category : Option String
  dataQualityFlag : Option String
deriving DecidableEq, Inhabited

/-- Rule 4 applied to one row: parse the Date column, failing if it does
not match the fixed format. -/
def finishRow (r : SaleRecord) : Option CleanedRecord :=
  (parseDateMDY r.date).map fun d =>
    ⟨r.status, r.amount, r.currency, d, r.qty, r.category, r.dataQualityFlag⟩

/-- `pd.to_datetime` over the whole column: succeeds only if every row
parses; the first failing row raises and nothing is produced. -/
def parseAll : List SaleRecord → Option (List CleanedRecord)
  | [] => some []
  | r :: rs =>
    match finishRow r, parseAll rs with
    | some c, some cs => some (c :: cs)
    | _, _ => none

/-- The whole cleaner `clean_amazon_sales_data` as a batch transform:
rules 1-3 row-wise, then rule 4 over the date column; a parse failure on
any row aborts the batch with an error and no cleaned output is written. -/
def cleanBatch (rows : List SaleRecord) : Except String (List CleanedRecord) :=
  match parseAll (rows.map cleanRules) with
  | some out => .ok out
  | none => .error "ParseError: time data does not match format %m-%d-%y"

/-- One row of the `raw_amazon_sales` DuckDB table, restricted to the
columns the loader fills and the aggregation queries read. All columns are
nullable in the DDL. -/
structure RawRow where
  indexId : Nat
  dateCol : Option Date
  category : Option String
  status : Option String
  qty : Option Int
  amount : Option Rat
  currency : Option String
  dataQualityFlag : Option String
deriving DecidableEq, Inhabited

/-- The column mapping plus `index_id` assignment performed by
`insert_raw_data_to_duckdb` on row number `i` of the cleaned batch. -/
def toRawRow (i : Nat) (c : CleanedRecord) : RawRow :=
  { indexId := i, dateCol := some c.dateCol, category := c.category,
    status := c.status, qty := c.qty, amount := c.amount,
    currency := c.currency, dataQualityFlag := c.dataQualityFlag }

/-- One row of the `monthly_revenue` table. The year-month grouping key
`strftime(%Y-%m, date_col)` is modelled as the (year, month) pair. -/
structure MonthlyRow where
  yearMonth : Nat × Nat
  category : String
  totalRevenue : Rat
  orderCount : Nat
  avgOrderValue : Rat
deriving DecidableEq, Inhabited

/-- One row of the `daily_orders` table. -/
structure DailyRow where
  orderDate : Date
  status : String
  orderCount : Nat
  totalQuantity : Int
  totalAmount : Rat
deriving DecidableEq, Inhabited

/-- The DuckDB store: the three tables of the pipeline schema. -/
structure DBState where
  rawData : List RawRow
  monthlyRevenue : List MonthlyRow
  dailyOrders : List DailyRow
deriving DecidableEq, Inhabited

/-- SQL `amount > 0` under three-valued logic: a NULL amount does not
satisfy the comparison, so the row is filtered out. -/
def sqlAmountPos : Option Rat → Bool
  | none => false
  | some a => decide (0 < a)

/-- The WHERE clause of the monthly revenue query (analytics.py lines
70-73): `date_col IS NOT NULL AND category IS NOT NULL AND (status IS
NULL OR status <> Cancelled) AND amount > 0`. -/
def monthlyWhere (r : RawRow) : Bool :=
  r.dateCol.isSome && r.category.isSome &&
    (r.status.isNone || !(r.status == some "Cancelled")) &&
    sqlAmountPos r.amount

/-- The GROUP BY key of the monthly revenue query:
`(strftime(%Y-%m, date_col), category)`. Rows reaching the grouping have
passed `monthlyWhere`, so both fields are non-null and the defaults are
never used. -/
def monthlyKey (r : RawRow) : (Nat × Nat) × String :=
  (((r.dateCol.getD default).year, (r.dateCol.getD default).month),
    r.category.getD "")

/-- The rows of one monthly-revenue group. -/
def monthlyGroup (rows : List RawRow) (k : (Nat × Nat) × String) :
    List RawRow :=
  rows.filter fun r => decide (monthlyKey r = k)

/-- COALESCE(amount, 0). -/
def coalesceAmount (r : RawRow) : Rat := r.amount.getD 0

/-- COALESCE(qty, 1). -/
def coalesceQty (r : RawRow) : Int := r.qty.getD 1

/-- One output row of the monthly revenue aggregation for key `k`, at
the level of the SELECT expressions: `SUM(COALESCE(amount, 0))`,
`COUNT(*)`, `AVG(COALESCE(amount, 0))` as exact values, BEFORE the
insert materializes them into the table columns. The stored row is
`mkMonthlyRowStored` below, where the DECIMAL(10,2) `avg_order_value`
column rounds the average to 2 decimals. -/
def mkMonthlyRow (rows : List RawRow) (k : (Nat × Nat) × String) :
    MonthlyRow :=
  let grp := monthlyGroup rows k
  { yearMonth := k.1, category := k.2,
    totalRevenue := (grp.map coalesceAmount).sum,
    orderCount := grp.length,
    avgOrderValue := (grp.map coalesceAmount).sum / (grp.length : Rat) }

/-- The full SELECT of `create_monthly_revenue_table` (lines 61-76):
filter, group by (year-month, category), aggregate. Group keys appear in
first-occurrence order (the ORDER BY affects presentation only). -/
def monthlyRevenueRows (raw : List RawRow) : List MonthlyRow :=
  let rows := raw.filter monthlyWhere
  ((rows.map monthlyKey).dedup).map (mkMonthlyRow rows)

/-- The WHERE clause of the daily orders query (lines 171-172):
`date_col IS NOT NULL AND status IS NOT NULL`. -/
def dailyWhere (r : RawRow) : Bool :=
  r.dateCol.isSome && r.status.isSome

/-- The GROUP BY key of the daily orders query: `(date_col, status)`. -/
def dailyKey (r : RawRow) : Date × String :=
  (r.dateCol.getD default, r.status.getD "")

/-- The rows of one daily-orders group. -/
def dailyGroup (rows : List RawRow) (k : Date × String) : List RawRow :=
  rows.filter fun r => decide (dailyKey r = k)

/-- One output row of the daily orders aggregation for key `k`:
`COUNT(*)`, `SUM(COALESCE(qty, 1))`, `SUM(COALESCE(amount, 0))`. -/
def mkDailyRow (rows : List RawRow) (k : Date × String) : DailyRow :=
  let grp := dailyGroup rows k
  { orderDate := k.1, status := k.2,
    orderCount := grp.length,
    totalQuantity := (grp.map coalesceQty).sum,
    totalAmount := (grp.map coalesceAmount).sum }

/-- The full SELECT of `create_daily_orders_table` (lines 162-174). -/
def dailyOrdersRows (raw : List RawRow) : List DailyRow :=
  let rows := raw.filter dailyWhere
  ((rows.map dailyKey).dedup).map (mkDailyRow rows)

/-- The op `insert_raw_data_to_duckdb`: map the cleaned batch onto the
warehouse schema with a fresh 0-based index, bulk-append it to the raw
table, then return `SELECT COUNT(*)` of the destination table (the
post-insert total, not the inserted count). -/
def insertRawDataToDuckdb (cleaned : List CleanedRecord) (s : DBState) :
    DBState × Nat :=
  let dfFinal := (cleaned.enum).map fun p => toRawRow p.1 p.2
  let s2 := { s with rawData := s.rawData ++ dfFinal }
  (s2, s2.rawData.length)

/-- The op `create_monthly_revenue_table`: `records_inserted` is a pure
trigger input (the op body never reads it); DELETE all rows of
`monthly_revenue`, INSERT the freshly aggregated groups, return
`SELECT COUNT(*)` of the rebuilt table. -/
def createMonthlyRevenueTable (recordsInserted : Nat) (s : DBState) :
    DBState × Nat :=
  let newRows := monthlyRevenueRows s.rawData
  ({ s with monthlyRevenue := newRows }, newRows.length)

/-- The op `create_daily_orders_table`: same replace protocol on
`daily_orders`. -/
def createDailyOrdersTable (recordsInserted : Nat) (s : DBState) :
    DBState × Nat :=
  let newRows := dailyOrdersRows s.rawData
  ({ s with dailyOrders := newRows }, newRows.length)

/-- The `DuckDBConnectionWrapper` handle state: the `_closed` flag of the
wrapper and whether the physical DuckDB connection is still open. -/
structure ConnWrapper where
  closed : Bool
  physicalOpen : Bool
deriving DecidableEq, Inhabited

/-- A freshly acquired handle: `_closed = False`, physical connection
open. -/
def acquireConn : ConnWrapper := { closed := false, physicalOpen := true }

/-- `DuckDBConnectionWrapper.execute`: raises RuntimeError when `_closed`,
otherwise forwards to the physical connection (modelled as returning the
unchanged handle). -/
def connExecute (w : ConnWrapper) (query : String) :
    Except String ConnWrapper :=
  if w.closed then .error "DuckDB connection is already closed"
  else .ok w

/-- `DuckDBConnectionWrapper.register` (bulkRegister): same closed-handle
guard as `execute`. -/
def connRegister (w : ConnWrapper) (name : String) :
    Except String ConnWrapper :=
  if w.closed then .error "DuckDB connection is already closed"
  else .ok w

/-- `DuckDBConnectionWrapper.close` (the `release` of the spec): closes the
physical connection and sets `_closed` only when not already closed. The
returned Bool records whether the physical `connection.close()` was
invoked by this call. -/
def connClose (w : ConnWrapper) : ConnWrapper × Bool :=
  if !w.closed then ({ closed := true, physicalOpen := false }, true)
  else (w, false)

/-! ### Helper lemmas about the cleaning rules -/

lemma applyRule1_amount_of_isSome (r : SaleRecord) (h : r.amount.isSome) :
    (applyRule1 r).amount = r.amount := by
  unfold applyRule1
  split
  · rename_i hc
    simp [Option.isSome_iff_exists] at h
    obtain ⟨a, ha⟩ := h
    simp [ha] at hc
  · rfl

lemma applyRule1_flag (r : SaleRecord) :
    (applyRule1 r).dataQualityFlag = r.dataQualityFlag := by
  unfold applyRule1; split <;> rfl

lemma applyRule1_status (r : SaleRecord) :
    (applyRule1 r).status = r.status := by
  unfold applyRule1; split <;> rfl

lemma applyRule2_amount (r : SaleRecord) :
    (applyRule2 r).amount = r.amount := by
  unfold applyRule2; split <;> rfl

lemma applyRule3_amount (r : SaleRecord) :
    (applyRule3 r).amount = r.amount := by
  unfold applyRule3; split <;> rfl

lemma applyRule3_flag (r : SaleRecord) :
    (applyRule3 r).dataQualityFlag = r.dataQualityFlag := by
  unfold applyRule3; split <;> rfl

lemma applyRule2_flag_of_not_missing (r : SaleRecord)
    (h : ¬(!(r.status == some "Cancelled") && r.amount.isNone) = true) :
    (applyRule2 r).dataQualityFlag = r.dataQualityFlag := by
  unfold applyRule2
  split
  · exact absurd (by assumption) h
  · rfl

lemma cleanRules_amount (r : SaleRecord) :
    (cleanRules r).amount = (applyRule1 r).amount := by
  unfold cleanRules
  rw [applyRule3_amount, applyRule2_amount]

lemma cleanRules_flag (r : SaleRecord) :
    (cleanRules r).dataQualityFlag = (applyRule2 (applyRule1 r)).dataQualityFlag := by
  unfold cleanRules
  rw [applyRule3_flag]

/-- C1 : the amount rules of the cleaner, stated against the ORIGINAL
(pre-cleaning) amount-null state of each row: a Cancelled row with null
amount gets amount 0.0; a non-Cancelled row with null amount keeps a null
amount and gets the `missing_amount_non_cancelled` flag; a row whose
amount is non-null has its amount and flag left unchanged by rules 1-2. -/
theorem C1_cancelled_amount_rules (r : SaleRecord) :
    (r.status = some "Cancelled" → r.amount = none →
      (cleanRules r).amount = some 0) ∧
    (r.status ≠ some "Cancelled" → r.amount = none →
      (cleanRules r).amount = none ∧
      (cleanRules r).dataQualityFlag = some "missing_amount_non_cancelled") ∧
    (r.amount ≠ none →
      (cleanRules r).amount = r.amount ∧
      (cleanRules r).dataQualityFlag = r.dataQualityFlag) := by
  refine ⟨?_, ?_, ?_⟩
  · intro hs ha
    rw [cleanRules_amount]
    unfold applyRule1
    simp [hs, ha]
  · intro hs ha
    have h1 : applyRule1 r = r := by
      unfold applyRule1
      split
      · rename_i hc
        simp [ha] at hc
        exact absurd hc hs
      · rfl
    constructor
    · rw [cleanRules_amount, h1, ha]
    · rw [cleanRules_flag, h1]
      unfold applyRule2
      split
      · rfl
      · rename_i hc
        simp [ha] at hc
        exact absurd hc hs
  · intro ha
    have hs : r.amount.isSome := Option.ne_none_iff_isSome.mp ha
    constructor
    · rw [cleanRules_amount, applyRule1_amount_of_isSome r hs]
    · rw [cleanRules_flag]
      have h2 : (applyRule1 r).amount = r.amount :=
        applyRule1_amount_of_isSome r hs
      rw [applyRule2_flag_of_not_missing, applyRule1_flag]
      simp [h2, Option.isNone_iff_eq_none, ha]

/-- Witness for C1 on a concrete Cancelled row with null amount. -/
theorem C1_cancelled_amount_rules_witness :
    (cleanRules ⟨some "Cancelled", none, some "INR", "4-01-22", some 1,
      some "kurta", none⟩).amount = some 0 :=
  (C1_cancelled_amount_rules _).1 rfl rfl

/-- C9 : a row whose status is null (pandas NaN, i.e. absent) and whose
amount is null is treated as non-cancelled by the cleaner: rule 1 leaves
the amount null and rule 2 sets the data-quality flag. -/
theorem C9_null_status_treated_non_cancelled (r : SaleRecord)
    (hs : r.status = none) (ha : r.amount = none) :
    (cleanRules r).amount = none ∧
    (cleanRules r).dataQualityFlag = some "missing_amount_non_cancelled" := by
  have h1 : applyRule1 r = r := by
    unfold applyRule1
    simp [hs]
  constructor
  · rw [cleanRules_amount, h1, ha]
  · rw [cleanRules_flag, h1]
    unfold applyRule2
    simp [hs, ha]

/-- Witness for C9 on a concrete row with null status and null amount. -/
theorem C9_null_status_treated_non_cancelled_witness :
    (cleanRules ⟨none, none, none, "4-01-22", none, none, none⟩).amount
        = none ∧
    (cleanRules ⟨none, none, none, "4-01-22", none, none, none⟩).dataQualityFlag
        = some "missing_amount_non_cancelled" :=
  C9_null_status_treated_non_cancelled _ rfl rfl

/-! ### The cleaner is fail-fast on unparseable dates -/

lemma applyRule1_date (r : SaleRecord) : (applyRule1 r).date = r.date := by
  unfold applyRule1; split <;> rfl

lemma applyRule2_date (r : SaleRecord) : (applyRule2 r).date = r.date := by
  unfold applyRule2; split <;> rfl

lemma applyRule3_date (r : SaleRecord) : (applyRule3 r).date = r.date := by
  unfold applyRule3; split <;> rfl

lemma cleanRules_date (r : SaleRecord) : (cleanRules r).date = r.date := by
  unfold cleanRules
  rw [applyRule3_date, applyRule2_date, applyRule1_date]

lemma finishRow_eq_none_iff (r : SaleRecord) :
    finishRow r = none ↔ parseDateMDY r.date = none := by
  unfold finishRow
  cases parseDateMDY r.date <;> simp

lemma parseAll_eq_none_iff (rows : List SaleRecord) :
    parseAll rows = none ↔ ∃ r ∈ rows, finishRow r = none := by
  induction rows with
  | nil => simp [parseAll]
  | cons a as ih =>
    simp only [parseAll]
    cases ha : finishRow a with
    | none => simp [ha]
    | some c =>
      cases hp : parseAll as with
      | none =>
        simp only [List.mem_cons]
        constructor
        · intro _
          obtain ⟨r, hr, hfin⟩ := ih.mp hp
          exact ⟨r, Or.inr hr, hfin⟩
        · intro _; trivial
      | some cs =>
        simp only [List.mem_cons]
        constructor
        · intro h; exact absurd h (by simp)
        · rintro ⟨r, hr | hr, hfin⟩
          · rw [hr] at hfin; rw [ha] at hfin; exact absurd hfin (by simp)
          · have : parseAll as = none := ih.mpr ⟨r, hr, hfin⟩
            rw [this] at hp
            exact absurd hp (by simp)

lemma parseAll_length {rows : List SaleRecord} {out : List CleanedRecord}
    (h : parseAll rows = some out) : out.length = rows.length := by
  induction rows generalizing out with
  | nil =>
    simp only [parseAll] at h
    cases h; rfl
  | cons a as ih =>
    simp only [parseAll] at h
    cases ha : finishRow a <;> rw [ha] at h
    · exact absurd h (by simp)
    · cases hp : parseAll as <;> rw [hp] at h
      · exact absurd h (by simp)
      · cases h
        simp [List.length_cons, ih hp]

/-- C6 : rule 4 parses the date of every row under the fixed `%m-%d-%y`
format; if the date of any row fails to parse, the whole batch errors and no
cleaned output is emitted, while a successful batch parses every date and
keeps the input cardinality (no partial output). -/
theorem C6_date_parse_fail_fast (rows : List SaleRecord) :
    ((∃ r ∈ rows, parseDateMDY r.date = none) →
      cleanBatch rows =
        .error "ParseError: time data does not match format %m-%d-%y") ∧
    (∀ out, cleanBatch rows = .ok out →
      (∀ r ∈ rows, (parseDateMDY r.date).isSome) ∧
      out.length = rows.length) := by
  constructor
  · rintro ⟨r, hr, hparse⟩
    have hfin : finishRow (cleanRules r) = none := by
      rw [finishRow_eq_none_iff, cleanRules_date]
      exact hparse
    have hnone : parseAll (rows.map cleanRules) = none :=
      (parseAll_eq_none_iff _).mpr
        ⟨cleanRules r, List.mem_map_of_mem _ hr, hfin⟩
    unfold cleanBatch
    rw [hnone]
  · intro out hok
    unfold cleanBatch at hok
    cases hp : parseAll (rows.map cleanRules) <;> rw [hp] at hok
    · exact absurd hok (by simp)
    · cases hok
      constructor
      · intro r hr
        rw [Option.isSome_iff_ne_none]
        intro hparse
        have hfin : finishRow (cleanRules r) = none := by
          rw [finishRow_eq_none_iff, cleanRules_date]
          exact hparse
        have : parseAll (rows.map cleanRules) = none :=
          (parseAll_eq_none_iff _).mpr
            ⟨cleanRules r, List.mem_map_of_mem _ hr, hfin⟩
        rw [this] at hp
        exact absurd hp (by simp)
      · rw [parseAll_length hp, List.length_map]

/-- Witness for C6: a batch whose second row has the malformed date
"2022-04-01" (ISO order, not `%m-%d-%y`) aborts with the parse error. -/
theorem C6_date_parse_fail_fast_witness :
    cleanBatch
      [⟨some "Shipped", some 299, some "INR", "3-31-22", some 1,
          some "Set", none⟩,
        ⟨some "Shipped", some 500, some "INR", "2022-04-01", some 1,
          some "kurta", none⟩] =
      .error "ParseError: time data does not match format %m-%d-%y" :=
  (C6_date_parse_fail_fast _).1
    ⟨⟨some "Shipped", some 500, some "INR", "2022-04-01", some 1,
        some "kurta", none⟩, by simp, by decide⟩

/-! ### Loader, rebuild protocol, connection wrapper -/

/-- C5 : the loader returns the post-insert `SELECT COUNT(*)` of the raw
table — the cumulative total (prior rows plus this batch), not merely the
inserted count — and this returned count is ≥ the row count of the table
before the run. -/
theorem C5_loader_returns_post_insert_total (cleaned : List CleanedRecord)
    (s : DBState) :
    (insertRawDataToDuckdb cleaned s).2 =
        (insertRawDataToDuckdb cleaned s).1.rawData.length ∧
    (insertRawDataToDuckdb cleaned s).2 =
        s.rawData.length + cleaned.length ∧
    s.rawData.length ≤ (insertRawDataToDuckdb cleaned s).2 := by
  refine ⟨rfl, ?_, ?_⟩
  · simp [insertRawDataToDuckdb]
  · simp [insertRawDataToDuckdb]

/-- C4 : each aggregation engine fully replaces its destination table
with rows recomputed from the raw table alone: the rebuilt table equals
the recomputation regardless of the prior destination contents (no
stale row survives), so two consecutive runs on an unchanged raw table
produce identical contents and identical returned counts. -/
theorem C4_rebuild_full_replace_idempotent (n m : Nat) (s : DBState) :
    ((createMonthlyRevenueTable n s).1.monthlyRevenue =
        monthlyRevenueRows s.rawData ∧
      (createDailyOrdersTable n s).1.dailyOrders =
        dailyOrdersRows s.rawData) ∧
    ((createMonthlyRevenueTable m (createMonthlyRevenueTable n s).1).1.monthlyRevenue
        = (createMonthlyRevenueTable n s).1.monthlyRevenue ∧
      (createMonthlyRevenueTable m (createMonthlyRevenueTable n s).1).2
        = (createMonthlyRevenueTable n s).2) ∧
    ((createDailyOrdersTable m (createDailyOrdersTable n s).1).1.dailyOrders
        = (createDailyOrdersTable n s).1.dailyOrders ∧
      (createDailyOrdersTable m (createDailyOrdersTable n s).1).2
        = (createDailyOrdersTable n s).2) := by
  exact ⟨⟨rfl, rfl⟩, ⟨rfl, rfl⟩, ⟨rfl, rfl⟩⟩

/-- C8 : the `records_inserted` input of each aggregation op is a pure
trigger: any two values of it yield exactly the same destination-table
contents and returned count; and each aggregator depends only on the raw
table (two store states agreeing on the raw table produce the same
rebuilt table and count), not on the output table of the other aggregator. -/
theorem C8_trigger_noninterference :
    (∀ (n m : Nat) (s : DBState),
      createMonthlyRevenueTable n s = createMonthlyRevenueTable m s ∧
      createDailyOrdersTable n s = createDailyOrdersTable m s) ∧
    (∀ (n : Nat) (s1 s2 : DBState), s1.rawData = s2.rawData →
      (createMonthlyRevenueTable n s1).1.monthlyRevenue
          = (createMonthlyRevenueTable n s2).1.monthlyRevenue ∧
      (createMonthlyRevenueTable n s1).2 = (createMonthlyRevenueTable n s2).2 ∧
      (createDailyOrdersTable n s1).1.dailyOrders
          = (createDailyOrdersTable n s2).1.dailyOrders ∧
      (createDailyOrdersTable n s1).2 = (createDailyOrdersTable n s2).2) := by
  constructor
  · intro n m s
    exact ⟨rfl, rfl⟩
  · intro n s1 s2 h
    refine ⟨?_, ?_, ?_, ?_⟩ <;>
      simp [createMonthlyRevenueTable, createDailyOrdersTable, h]

/-- Witness for C8: trigger values 3 and 42 on the same store, and two
stores sharing an empty raw table but differing in the monthly table. -/
theorem C8_trigger_noninterference_witness :
    (createMonthlyRevenueTable 3 ⟨[], [], []⟩ =
        createMonthlyRevenueTable 42 ⟨[], [], []⟩) ∧
    ((createMonthlyRevenueTable 7
          ⟨[], [⟨(2022, 4), "Set", 299, 1, 299⟩], []⟩).1.monthlyRevenue =
      (createMonthlyRevenueTable 7 ⟨[], [], []⟩).1.monthlyRevenue) :=
  ⟨(C8_trigger_noninterference.1 3 42 ⟨[], [], []⟩).1,
    (C8_trigger_noninterference.2 7
      ⟨[], [⟨(2022, 4), "Set", 299, 1, 299⟩], []⟩ ⟨[], [], []⟩ rfl).1⟩

/-- C7 : `close` (the `release` of the spec) on an open handle closes the
physical connection and marks the handle closed; calling it again is a
no-op that does not touch the physical connection (idempotent,
exactly-once physical close); `execute` and `register` on a closed handle
fail with the closed-connection error. -/
theorem C7_release_idempotent_and_guarded :
    (connClose acquireConn =
        ({ closed := true, physicalOpen := false }, true)) ∧
    (∀ w : ConnWrapper, w.closed = true → connClose w = (w, false)) ∧
    (∀ w : ConnWrapper,
      connClose (connClose w).1 = ((connClose w).1, false)) ∧
    (∀ (w : ConnWrapper) (q : String), w.closed = true →
      connExecute w q = .error "DuckDB connection is already closed") ∧
    (∀ (w : ConnWrapper) (nm : String), w.closed = true →
      connRegister w nm = .error "DuckDB connection is already closed") := by
  refine ⟨rfl, ?_, ?_, ?_, ?_⟩
  · intro w h
    simp [connClose, h]
  · intro w
    cases hw : w.closed <;> simp [connClose, hw]
  · intro w q h
    simp [connExecute, h]
  · intro w nm h
    simp [connRegister, h]

/-- Witness for C7 on the concrete already-closed handle. -/
theorem C7_release_idempotent_and_guarded_witness :
    connClose ⟨true, false⟩ = (⟨true, false⟩, false) ∧
    connExecute ⟨true, false⟩ "SELECT 1" =
        .error "DuckDB connection is already closed" ∧
    connRegister ⟨true, false⟩ "df_temp" =
        .error "DuckDB connection is already closed" :=
  ⟨C7_release_idempotent_and_guarded.2.1 ⟨true, false⟩ rfl,
    C7_release_idempotent_and_guarded.2.2.2.1 ⟨true, false⟩ "SELECT 1" rfl,
    C7_release_idempotent_and_guarded.2.2.2.2 ⟨true, false⟩ "df_temp" rfl⟩

/-! ### Helper lemmas for the aggregation queries -/

lemma filter_filter_of_imp {α : Type} (p q : α → Bool)
    (h : ∀ a, p a = true → q a = true) (l : List α) :
    (l.filter q).filter p = l.filter p := by
  induction l with
  | nil => rfl
  | cons a as ih =>
    simp only [List.filter_cons]
    cases hq : q a with
    | true =>
      cases hp : p a <;> simp [List.filter_cons, hp, ih]
    | false =>
      have hp : p a = false := by
        cases hpa : p a
        · rfl
        · exact absurd (h a hpa) (by simp [hq])
      simp [hp, ih]

lemma mem_of_mem_filter_bool {α : Type} {p : α → Bool} {l : List α}
    {a : α} (h : a ∈ l.filter p) : a ∈ l ∧ p a = true :=
  ⟨List.mem_of_mem_filter h, List.of_mem_filter h⟩

lemma monthlyWhere_amount_isSome {r : RawRow}
    (h : monthlyWhere r = true) : r.amount.isSome := by
  unfold monthlyWhere at h
  simp only [Bool.and_eq_true] at h
  cases hx : r.amount with
  | none =>
    rw [hx] at h
    simp [sqlAmountPos] at h
  | some a => rfl

lemma monthlyWhere_amount_pos {r : RawRow} {a : Rat}
    (h : monthlyWhere r = true) (hx : r.amount = some a) : 0 < a := by
  unfold monthlyWhere at h
  simp only [Bool.and_eq_true] at h
  rw [hx] at h
  simpa [sqlAmountPos] using h.2

lemma monthlyWhere_not_cancelled {r : RawRow}
    (h : monthlyWhere r = true) :
    (!(r.status == some "Cancelled")) = true := by
  cases hs : r.status with
  | none => simp
  | some st =>
    unfold monthlyWhere at h
    simp only [Bool.and_eq_true, Bool.or_eq_true] at h
    rcases h.1.2 with hnone | hne
    · rw [hs] at hnone
      simp at hnone
    · rw [hs] at hne
      exact hne

lemma sum_coalesce_eq_filterMap (l : List RawRow)
    (h : ∀ r ∈ l, r.amount.isSome) :
    (l.map coalesceAmount).sum = (l.filterMap RawRow.amount).sum := by
  induction l with
  | nil => rfl
  | cons a as ih =>
    obtain ⟨x, hx⟩ :=
      Option.isSome_iff_exists.mp (h a (List.mem_cons_self a as))
    have ihs := ih fun r hr => h r (List.mem_cons_of_mem a hr)
    simp [List.filterMap_cons, hx, coalesceAmount, ihs]

lemma monthlyGroup_nonempty {rows : List RawRow}
    {k : (Nat × Nat) × String}
    (hk : k ∈ ((rows.map monthlyKey).dedup)) :
    monthlyGroup rows k ≠ [] := by
  rw [List.mem_dedup] at hk
  obtain ⟨r, hr, hkey⟩ := List.mem_map.mp hk
  intro hempty
  have hmem : r ∈ monthlyGroup rows k := by
    unfold monthlyGroup
    rw [List.mem_filter]
    exact ⟨hr, by simp [hkey]⟩
  rw [hempty] at hmem
  cases hmem

lemma dailyGroup_nonempty {rows : List RawRow} {k : Date × String}
    (hk : k ∈ ((rows.map dailyKey).dedup)) :
    dailyGroup rows k ≠ [] := by
  rw [List.mem_dedup] at hk
  obtain ⟨r, hr, hkey⟩ := List.mem_map.mp hk
  intro hempty
  have hmem : r ∈ dailyGroup rows k := by
    unfold dailyGroup
    rw [List.mem_filter]
    exact ⟨hr, by simp [hkey]⟩
  rw [hempty] at hmem
  cases hmem

lemma mkMonthlyRow_yearMonth (rows : List RawRow)
    (k : (Nat × Nat) × String) : (mkMonthlyRow rows k).yearMonth = k.1 :=
  rfl

lemma mkMonthlyRow_category (rows : List RawRow)
    (k : (Nat × Nat) × String) : (mkMonthlyRow rows k).category = k.2 :=
  rfl

lemma monthlyWhere_iff (r : RawRow) :
    monthlyWhere r = true ↔
      (r.dateCol ≠ none ∧ r.category ≠ none ∧
        (r.status = none ∨ r.status ≠ some "Cancelled") ∧
        ∃ a, r.amount = some a ∧ 0 < a) := by
  unfold monthlyWhere
  cases hx : r.amount with
  | none =>
    simp [sqlAmountPos, Option.isSome_iff_ne_none, Option.isNone_iff_eq_none]
  | some a =>
    simp [sqlAmountPos, Option.isSome_iff_ne_none, Option.isNone_iff_eq_none]
    tauto

lemma monthly_cancelled_invariant (raw : List RawRow) :
    monthlyRevenueRows raw =
      monthlyRevenueRows
        (raw.filter fun r => !(r.status == some "Cancelled")) := by
  simp only [monthlyRevenueRows]
  rw [filter_filter_of_imp monthlyWhere
        (fun r => !(r.status == some "Cancelled"))
        (fun r h => monthlyWhere_not_cancelled h) raw]

lemma monthly_row_characterization {raw : List RawRow} {m : MonthlyRow}
    (hm : m ∈ monthlyRevenueRows raw) :
    m.totalRevenue =
      ((monthlyGroup (raw.filter monthlyWhere)
          (m.yearMonth, m.category)).filterMap RawRow.amount).sum ∧
    m.orderCount =
      (monthlyGroup (raw.filter monthlyWhere)
          (m.yearMonth, m.category)).length ∧
    m.avgOrderValue = m.totalRevenue / (m.orderCount : Rat) := by
  simp only [monthlyRevenueRows] at hm
  obtain ⟨k, hk, hmk⟩ := List.mem_map.mp hm
  subst hmk
  have hkey :
      ((mkMonthlyRow (raw.filter monthlyWhere) k).yearMonth,
        (mkMonthlyRow (raw.filter monthlyWhere) k).category) = k := rfl
  rw [hkey]
  have hall : ∀ r ∈ monthlyGroup (raw.filter monthlyWhere) k,
      r.amount.isSome := by
    intro r hr
    unfold monthlyGroup at hr
    exact monthlyWhere_amount_isSome
      (List.of_mem_filter (List.mem_of_mem_filter hr))
  exact ⟨sum_coalesce_eq_filterMap _ hall, rfl, rfl⟩

/-- A concrete raw-table row from the spec scenario: Shipped, category
Set, 2022-03-31, amount 299. -/
def sampleRawRow : RawRow :=
  ⟨0, some ⟨2022, 3, 31⟩, some "Set", some "Shipped", some 1, some 299,
    some "INR", none⟩

/-- The monthly revenue row the scenario expects from that single raw
row. -/
def sampleMonthlyRow : MonthlyRow := ⟨(2022, 3), "Set", 299, 1, 299⟩

lemma monthlyRevenueRows_sample :
    monthlyRevenueRows [sampleRawRow] = [sampleMonthlyRow] := by
  simp [monthlyRevenueRows, monthlyWhere, sqlAmountPos, sampleRawRow,
    monthlyKey, mkMonthlyRow, monthlyGroup, coalesceAmount, List.dedup,
    sampleMonthlyRow]

/-- C2 : the monthly revenue rebuild includes exactly the raw rows with
non-null date, non-null category, status null or different from
Cancelled, and amount strictly positive (NULL amount fails the SQL
comparison); removing every Cancelled row from the raw table leaves the
rebuilt monthly table unchanged, so Cancelled rows never contribute to
any aggregate; and each output row carries sum(amount), count(*) and
avg(amount) of its (year-month, category) group. -/
theorem C2_monthly_revenue_filter_and_aggregates (raw : List RawRow)
    (m : MonthlyRow) :
    (∀ r : RawRow, monthlyWhere r = true ↔
      (r.dateCol ≠ none ∧ r.category ≠ none ∧
        (r.status = none ∨ r.status ≠ some "Cancelled") ∧
        ∃ a, r.amount = some a ∧ 0 < a)) ∧
    (monthlyRevenueRows raw =
      monthlyRevenueRows
        (raw.filter fun r => !(r.status == some "Cancelled"))) ∧
    (m ∈ monthlyRevenueRows raw →
      m.totalRevenue =
        ((monthlyGroup (raw.filter monthlyWhere)
            (m.yearMonth, m.category)).filterMap RawRow.amount).sum ∧
      m.orderCount =
        (monthlyGroup (raw.filter monthlyWhere)
            (m.yearMonth, m.category)).length ∧
      m.avgOrderValue = m.totalRevenue / (m.orderCount : Rat)) :=
  ⟨monthlyWhere_iff, monthly_cancelled_invariant raw,
    fun hm => monthly_row_characterization hm⟩

/-- Witness for C2 on a one-row raw table: the single Shipped row of
category Set, March 2022, amount 299 produces the expected aggregate
row. -/
theorem C2_monthly_revenue_filter_and_aggregates_witness :
    sampleMonthlyRow.totalRevenue =
        ((monthlyGroup (([sampleRawRow] : List RawRow).filter monthlyWhere)
            (sampleMonthlyRow.yearMonth, sampleMonthlyRow.category)).filterMap
          RawRow.amount).sum :=
  ((C2_monthly_revenue_filter_and_aggregates [sampleRawRow]
      sampleMonthlyRow).2.2
    (by rw [monthlyRevenueRows_sample]; exact List.mem_singleton.mpr rfl)).1

/-- The rounding performed when the result of `AVG` is stored into the
DECIMAL(10,2) column `avg_order_value` (duckdb_resource.py line 125):
round to the nearest multiple of 1/100. The averages stored by the
pipeline are positive, where round-half-up coincides with the cast
rounding (half away from zero). -/
def roundDec2 (x : Rat) : Rat := ((round (x * 100) : Int) : Rat) / 100

/-- The monthly revenue row as materialized in the `monthly_revenue`
table: `avg_order_value` passes through the DECIMAL(10,2) column and is
rounded to 2 decimals; `total_revenue` is a sum of DECIMAL(10,2) amounts
accumulated into DECIMAL(12,2), which is exact. -/
def mkMonthlyRowStored (rows : List RawRow) (k : (Nat × Nat) × String) :
    MonthlyRow :=
  let base := mkMonthlyRow rows k
  { base with avgOrderValue := roundDec2 base.avgOrderValue }

/-- The contents of the rebuilt `monthly_revenue` table as stored,
column rounding included. -/
def monthlyRevenueRowsStored (raw : List RawRow) : List MonthlyRow :=
  let rows := raw.filter monthlyWhere
  ((rows.map monthlyKey).dedup).map (mkMonthlyRowStored rows)

/-- A raw table on which the stored average is not exact: one March 2022
Set group with amounts 100, 100 and 101. -/
def cexRaw : List RawRow :=
  [⟨0, some ⟨2022, 3, 1⟩, some "Set", some "Shipped", some 1, some 100,
      some "INR", none⟩,
    ⟨1, some ⟨2022, 3, 2⟩, some "Set", some "Shipped", some 1, some 100,
      some "INR", none⟩,
    ⟨2, some ⟨2022, 3, 3⟩, some "Set", some "Shipped", some 1, some 101,
      some "INR", none⟩]

lemma monthlyRevenueRowsStored_cex :
    monthlyRevenueRowsStored cexRaw =
      [⟨(2022, 3), "Set", 301, 3, 10033 / 100⟩] := by
  have hfilter : cexRaw.filter monthlyWhere = cexRaw := by decide
  have hkeys : (cexRaw.map monthlyKey).dedup = [((2022, 3), "Set")] := by
    decide
  have hgrp : monthlyGroup cexRaw ((2022, 3), "Set") = cexRaw := by decide
  simp only [monthlyRevenueRowsStored, hfilter, hkeys, List.map_cons,
    List.map_nil]
  simp only [mkMonthlyRowStored, mkMonthlyRow, hgrp]
  norm_num [cexRaw, coalesceAmount, roundDec2, round_eq]

/-- C10 counterexample: on `cexRaw` (amounts 100, 100, 101 in one
group), the stored `avg_order_value` is 100.33 — the DECIMAL(10,2)
rounding of 301/3 — and 100.33 * 3 = 300.99 ≠ 301, so the claimed exact
identity avg_order_value * order_count = total_revenue (equivalently
avg_order_value = total_revenue / order_count) is false for the
materialized table. -/
theorem C10_avg_rounding_counterexample :
    monthlyRevenueRowsStored cexRaw =
      [⟨(2022, 3), "Set", 301, 3, 10033 / 100⟩] ∧
    ¬ (∀ raw : List RawRow, ∀ m ∈ monthlyRevenueRowsStored raw,
        m.avgOrderValue * (m.orderCount : Rat) = m.totalRevenue) := by
  refine ⟨monthlyRevenueRowsStored_cex, ?_⟩
  intro h
  have hm := h cexRaw ⟨(2022, 3), "Set", 301, 3, 10033 / 100⟩
    (by rw [monthlyRevenueRowsStored_cex]; exact List.mem_singleton.mpr rfl)
  norm_num at hm

/-- C10 amended: in every stored row of the rebuilt monthly revenue
table, avg_order_value equals total_revenue / order_count ROUNDED to 2
decimal places (the DECIMAL(10,2) column), the group being non-empty;
the exact identity holds only up to this rounding. -/
theorem C10_avg_order_value_rounded (raw : List RawRow) (m : MonthlyRow)
    (hm : m ∈ monthlyRevenueRowsStored raw) :
    0 < m.orderCount ∧
    m.avgOrderValue = roundDec2 (m.totalRevenue / (m.orderCount : Rat)) := by
  simp only [monthlyRevenueRowsStored] at hm
  obtain ⟨k, hk, hmk⟩ := List.mem_map.mp hm
  subst hmk
  have hne := monthlyGroup_nonempty hk
  have hlen : (monthlyGroup (raw.filter monthlyWhere) k).length ≠ 0 := by
    simpa [List.length_eq_zero] using hne
  exact ⟨Nat.pos_of_ne_zero hlen, rfl⟩

lemma monthlyRevenueRowsStored_sample :
    monthlyRevenueRowsStored [sampleRawRow] = [sampleMonthlyRow] := by
  simp [monthlyRevenueRowsStored, monthlyWhere, sqlAmountPos,
    sampleRawRow, monthlyKey, mkMonthlyRowStored, mkMonthlyRow,
    monthlyGroup, coalesceAmount, List.dedup, sampleMonthlyRow, roundDec2]
  norm_num [round_eq]

/-- Witness for the amended C10 on the one-row sample raw table, whose
average 299 is already 2-decimal so rounding fixes it. -/
theorem C10_avg_order_value_rounded_witness :
    0 < sampleMonthlyRow.orderCount ∧
    sampleMonthlyRow.avgOrderValue =
      roundDec2 (sampleMonthlyRow.totalRevenue /
        (sampleMonthlyRow.orderCount : Rat)) :=
  C10_avg_order_value_rounded [sampleRawRow] sampleMonthlyRow
    (by rw [monthlyRevenueRowsStored_sample]
        exact List.mem_singleton.mpr rfl)

lemma dailyWhere_iff (r : RawRow) :
    dailyWhere r = true ↔ (r.dateCol ≠ none ∧ r.status ≠ none) := by
  simp [dailyWhere, Option.isSome_iff_ne_none]

lemma daily_contribution {raw : List RawRow} {r : RawRow} {d : Date}
    {st : String} (hr : r ∈ raw) (hd : r.dateCol = some d)
    (hs : r.status = some st) :
    ∃ x ∈ dailyOrdersRows raw,
      x.orderDate = d ∧ x.status = st ∧ 0 < x.orderCount := by
  have hw : dailyWhere r = true := by simp [dailyWhere, hd, hs]
  have hrows : r ∈ raw.filter dailyWhere := List.mem_filter.mpr ⟨hr, hw⟩
  have hkey : dailyKey r = (d, st) := by simp [dailyKey, hd, hs]
  have hk : (d, st) ∈ ((raw.filter dailyWhere).map dailyKey).dedup := by
    rw [List.mem_dedup]
    exact List.mem_map.mpr ⟨r, hrows, hkey⟩
  have hg : r ∈ dailyGroup (raw.filter dailyWhere) (d, st) := by
    unfold dailyGroup
    exact List.mem_filter.mpr ⟨hrows, by simp [hkey]⟩
  refine ⟨mkDailyRow (raw.filter dailyWhere) (d, st), ?_, rfl, rfl, ?_⟩
  · simp only [dailyOrdersRows]
    exact List.mem_map_of_mem _ hk
  · show 0 < (dailyGroup (raw.filter dailyWhere) (d, st)).length
    exact List.length_pos_of_mem hg

lemma daily_row_characterization {raw : List RawRow} {x : DailyRow}
    (hx : x ∈ dailyOrdersRows raw) :
    x.orderCount =
      (dailyGroup (raw.filter dailyWhere) (x.orderDate, x.status)).length ∧
    x.totalQuantity =
      ((dailyGroup (raw.filter dailyWhere)
          (x.orderDate, x.status)).map coalesceQty).sum ∧
    x.totalAmount =
      ((dailyGroup (raw.filter dailyWhere)
          (x.orderDate, x.status)).map coalesceAmount).sum := by
  simp only [dailyOrdersRows] at hx
  obtain ⟨k, hk, hxk⟩ := List.mem_map.mp hx
  subst hxk
  exact ⟨rfl, rfl, rfl⟩

/-- C3 : the daily orders rebuild includes exactly the raw rows with
non-null date and non-null status — any such row contributes, including
rows with status Cancelled, and neither amount nor category is filtered —
grouped by (date, status) with order_count = count(*), total_quantity
summing quantity with null counted as 1, and total_amount summing amount
with null counted as 0. -/
theorem C3_daily_orders_filter_and_aggregates (raw : List RawRow) :
    (∀ r : RawRow, dailyWhere r = true ↔
      (r.dateCol ≠ none ∧ r.status ≠ none)) ∧
    (∀ (r : RawRow) (d : Date) (st : String), r ∈ raw →
      r.dateCol = some d → r.status = some st →
      ∃ x ∈ dailyOrdersRows raw,
        x.orderDate = d ∧ x.status = st ∧ 0 < x.orderCount) ∧
    (∀ x ∈ dailyOrdersRows raw,
      x.orderCount =
        (dailyGroup (raw.filter dailyWhere) (x.orderDate, x.status)).length ∧
      x.totalQuantity =
        ((dailyGroup (raw.filter dailyWhere)
            (x.orderDate, x.status)).map coalesceQty).sum ∧
      x.totalAmount =
        ((dailyGroup (raw.filter dailyWhere)
            (x.orderDate, x.status)).map coalesceAmount).sum) :=
  ⟨dailyWhere_iff,
    fun _ _ _ hr hd hs => daily_contribution hr hd hs,
    fun _ hx => daily_row_characterization hx⟩

/-- Witness for C3: a raw table holding one Cancelled row (2022-04-01,
amount 0) yields a daily-orders row for (2022-04-01, Cancelled) with a
positive order count — Cancelled rows DO contribute. -/
theorem C3_daily_orders_filter_and_aggregates_witness :
    ∃ x ∈ dailyOrdersRows
        [(⟨1, some ⟨2022, 4, 1⟩, some "kurta", some "Cancelled", some 1,
            some 0, some "INR", none⟩ : RawRow)],
      x.orderDate = ⟨2022, 4, 1⟩ ∧ x.status = "Cancelled" ∧
        0 < x.orderCount :=
  (C3_daily_orders_filter_and_aggregates
      [⟨1, some ⟨2022, 4, 1⟩, some "kurta", some "Cancelled", some 1,
          some 0, some "INR", none⟩]).2.1
    ⟨1, some ⟨2022, 4, 1⟩, some "kurta", some "Cancelled", some 1,
        some 0, some "INR", none⟩
    ⟨2022, 4, 1⟩ "Cancelled" (List.mem_singleton.mpr rfl) rfl rfl

end Pipeline
